import Mathlib

/-!
Verification development for the Whirlpool oven session manager
(`custom_components/whirlpool_oven/coordinator.py`).

The embedding models JSON values, Python-dict merge semantics
(`dict.update`, `dict.get`), the coordinator's inbound-message handling,
authentication / Cognito credential refresh, MQTT resubscription,
command publishing, favourites fetching and triggering.
-/

namespace WhirlpoolOven

/-- JSON values as decoded by `json.loads`. Numbers are modelled as
integers (all numeric values exercised by the coordinator are integral). -/
inductive Json where
  | null
  | bool (b : Bool)
  | num (n : Int)
  | str (s : String)
  | arr (elems : List Json)
  | obj (entries : List (String × Json))

/-- A Python dict with string keys, as an ordered association list.
Real dicts decoded from JSON have unique keys; lookups take the first
occurrence, matching dict semantics on unique-key lists. -/
abbrev PyDict := List (String × Json)

/-- `d.get(k)` / `d[k]`: first binding of `k` in `d`. -/
def dictGet : PyDict → String → Option Json
  | [], _ => none
  | (k', v) :: rest, k => if k' = k then some v else dictGet rest k

/-- `d[k] = v`: replace the first binding of `k`, or append a new one. -/
def setKey : PyDict → String → Json → PyDict
  | [], k, v => [(k, v)]
  | (k', v') :: rest, k, v =>
      if k' = k then (k, v) :: rest else (k', v') :: setKey rest k v

/-- `d.update(u)`: Python dict update — every key of `u` is written into
`d` in order, overwriting existing keys and appending new ones. -/
def dictUpdate (d u : PyDict) : PyDict :=
  u.foldl (fun acc kv => setKey acc kv.1 kv.2) d

/-- `j.get(k)` when `j` is a JSON object; `none` otherwise. -/
def jGet (j : Json) (k : String) : Option Json :=
  match j with
  | .obj es => dictGet es k
  | _ => none

/-- Option "or": first result if present, else the second. -/
def orO (a b : Option Json) : Option Json :=
  match a with
  | some v => some v
  | none => b

/-- The binding a sequence of writes leaves for `k`: the LAST occurrence
of `k` in the written list (later writes win under `dict.update`). -/
def lastBinding (u : PyDict) (k : String) : Option Json :=
  dictGet u.reverse k

/-- `_apply_state_update(data)`: `self._state.update(data)` — a shallow
dict update of the snapshot with the top-level keys of the frame. -/
def applyStateUpdate (st : PyDict) (data : PyDict) : PyDict :=
  dictUpdate st data

/-- A sequence of inbound partial updates applied in order. -/
def applyAll (st : PyDict) (us : List PyDict) : PyDict :=
  us.foldl applyStateUpdate st

/-- The value from the most recently applied update that wrote key `k`,
over a sequence of updates (within one update, later bindings win). -/
def lastWritten (us : List PyDict) (k : String) : Option Json :=
  lastBinding us.flatten k

/-- Whether `sub` occurs inside `s` as a list of characters. -/
def charsInfix (sub : List Char) : List Char → Bool
  | [] => sub.isEmpty
  | c :: rest => sub.isPrefixOf (c :: rest) || charsInfix sub rest

/-- Python `sub in s` substring test. -/
def pyIn (sub s : String) : Bool :=
  charsInfix sub.data s.data

/-- `TOPIC_STATE_UPDATE.format(model=…, said=…)`. -/
def topicStateUpdate (model said : String) : String :=
  "dt/" ++ model ++ "/" ++ said ++ "/state/update"

/-- `TOPIC_CMD_REQUEST.format(model=…, said=…, client_id=…)`. -/
def topicCmdRequest (model said clientId : String) : String :=
  "cmd/" ++ model ++ "/" ++ said ++ "/request/" ++ clientId

/-- `TOPIC_CMD_RESPONSE.format(model=…, said=…, client_id=…)`. -/
def topicCmdResponse (model said clientId : String) : String :=
  "cmd/" ++ model ++ "/" ++ said ++ "/response/" ++ clientId

/-- `_on_mqtt_message` after a successful `json.loads`: pick the state
data (direct for a `/state/update` topic, else the `payload` field with
the whole object as `dict.get` default) and merge it into the snapshot
when it is a dict; otherwise the frame is dropped and the snapshot is
unchanged (an undecodable payload never reaches this point). -/
def onMqttMessage (st : PyDict) (topic : String) (data : Json) : PyDict :=
  let stateData : Json :=
    if pyIn "/state/update" topic then data
    else
      match data with
      | .obj entries => (dictGet entries "payload").getD data
      | other => other
  match stateData with
  | .obj entries => applyStateUpdate st entries
  | _ => st

mutual

/-- Structural equality of JSON values (Python `==` on decoded values). -/
def Json.beq : Json → Json → Bool
  | .null, .null => true
  | .bool a, .bool b => a == b
  | .num a, .num b => a == b
  | .str a, .str b => a == b
  | .arr as, .arr bs => Json.beqArr as bs
  | .obj as, .obj bs => Json.beqObj as bs
  | _, _ => false

def Json.beqArr : List Json → List Json → Bool
  | [], [] => true
  | a :: as, b :: bs => Json.beq a b && Json.beqArr as bs
  | _, _ => false

def Json.beqObj : List (String × Json) → List (String × Json) → Bool
  | [], [] => true
  | (ka, va) :: as, (kb, vb) :: bs =>
      ka == kb && Json.beq va vb && Json.beqObj as bs
  | _, _ => false

end

/-- `_REFRESH_BUFFER`: refresh this many seconds before expiry. -/
def refreshBuffer : Int := 300

/-- `_is_token_valid`: an access token is stored and `time.time()` is
still more than the buffer before its expiry (times in whole seconds). -/
def isTokenValid (hasAccessToken : Bool) (now tokenExpires : Int) : Bool :=
  hasAccessToken && decide (now < tokenExpires - refreshBuffer)

/-- `_is_cognito_valid`: AWS credentials are stored and `time.time()` is
still more than the buffer before their expiry. -/
def isCognitoValid (hasAwsCreds : Bool) (now credsExpire : Int) : Bool :=
  hasAwsCreds && decide (now < credsExpire - refreshBuffer)

/-- One outbound OAuth token-endpoint POST, by grant type. -/
inductive AuthCall where
  | refreshGrant
  | passwordGrant
  deriving DecidableEq

/-- Environment for `_do_auth`: whether each grant, if attempted, comes
back HTTP 200 with a decodable body. -/
structure AuthEnv where
  refreshOk : Bool
  passwordOk : Bool

/-- `_ensure_auth`: no-op when the token is valid; otherwise try the
refresh-token grant first (only when a refresh token is stored), fall
back to the password grant, and raise (`none`) when both grants fail.
The second component lists the token-endpoint calls issued, in order. -/
def ensureAuth (hasAccessToken : Bool) (now tokenExpires : Int)
    (hasRefreshToken : Bool) (env : AuthEnv) : Option Unit × List AuthCall :=
  if isTokenValid hasAccessToken now tokenExpires then (some (), [])
  else if hasRefreshToken then
    if env.refreshOk then (some (), [.refreshGrant])
    else if env.passwordOk then (some (), [.refreshGrant, .passwordGrant])
    else (none, [.refreshGrant, .passwordGrant])
  else if env.passwordOk then (some (), [.passwordGrant])
  else (none, [.passwordGrant])

/-- One outbound network call made while refreshing credentials. -/
inductive NetCall where
  | oauthToken (c : AuthCall)
  | cognitoIdentity
  | cognitoExchange
  deriving DecidableEq

/-- Environment for `_ensure_cognito_creds`: whether the identity
federation GET and the `GetCredentialsForIdentity` exchange succeed. -/
structure CognitoEnv where
  identityOk : Bool
  exchangeOk : Bool

/-- `_ensure_cognito_creds`: no-op when the Cognito credentials are
valid; otherwise ensure OAuth first, then perform the identity-federation
GET and the credential exchange, raising (`none`) on any failure. The
second component lists all network calls issued, in order. -/
def ensureCognitoCreds (hasAwsCreds : Bool) (credsExpire : Int)
    (hasAccessToken : Bool) (tokenExpires : Int) (now : Int)
    (hasRefreshToken : Bool) (env : AuthEnv) (cenv : CognitoEnv) :
    Option Unit × List NetCall :=
  if isCognitoValid hasAwsCreds now credsExpire then (some (), [])
  else
    match ensureAuth hasAccessToken now tokenExpires hasRefreshToken env with
    | (none, cs) => (none, cs.map .oauthToken)
    | (some _, cs) =>
        let calls := cs.map NetCall.oauthToken ++ [NetCall.cognitoIdentity]
        if cenv.identityOk then
          let calls := calls ++ [NetCall.cognitoExchange]
          if cenv.exchangeOk then (some (), calls) else (none, calls)
        else (none, calls)

/-- One call on the MQTT connection. -/
inductive MqttCall where
  | subscribe (topic : String)
  | publish (topic : String) (message : Json)

/-- `_subscribe_topics`: subscribe to the state-update topic and the
command-response topic, in that order, one subscribe call each. -/
def subscribeTopics (model said clientId : String) : List MqttCall :=
  [.subscribe (topicStateUpdate model said),
   .subscribe (topicCmdResponse model said clientId)]

/-- `_on_mqtt_resumed`: when the broker did not preserve the session,
replay `_subscribe_topics`; when it did, do nothing. Returns the MQTT
calls issued by the handler. -/
def onMqttResumed (sessionPresent : Bool) (model said clientId : String) :
    List MqttCall :=
  if sessionPresent then [] else subscribeTopics model said clientId

/-- Whether an MQTT call is a subscribe on the given topic. -/
def isSubscribeOn (t : String) : MqttCall → Bool
  | .subscribe t' => t' == t
  | _ => false

/-- The error taxonomy for the publish path. The source never raises any
of these: this type only gives the exception channel of the embedding a
name so that claims about raised errors can be stated. -/
inductive PubError where
  | channelUnavailable
  deriving DecidableEq

/-- The outer command envelope: fresh request id, millisecond timestamp,
and the command payload. -/
def commandEnvelope (requestId : String) (timestampMs : Int) (payload : Json) : Json :=
  .obj [("requestId", .str requestId),
        ("timestamp", .num timestampMs),
        ("payload", payload)]

/-- `_publish_command`: with no live connection, log an error and return
normally — no exception is raised and no MQTT call is made. With a
connection, publish the envelope on the command-request topic. The first
component is the exception raised (always `none` in the source); the
second lists the MQTT calls made. -/
def publishCommand (connected : Bool) (model said clientId : String)
    (requestId : String) (timestampMs : Int) (payload : Json) :
    Option PubError × List MqttCall :=
  if connected then
    (none, [.publish (topicCmdRequest model said clientId)
              (commandEnvelope requestId timestampMs payload)])
  else (none, [])

/-- One flattened favourite as built by `_fetch_favourites`:
`{"id": …, "name": …, "cavity": …, "cycleInfo": …}` with the source's
`dict.get` defaults. Field values keep their decoded JSON shape. -/
structure Favourite where
  id : Json
  name : Json
  cavity : Json
  cycleInfo : Json

/-- One favourite-cycle entry of the fetched body, with the defaults of
`_fetch_favourites`; a non-dict entry would raise in the source
(modelled as `none`). -/
def mkFavourite : Json → Option Favourite
  | .obj es =>
      some ⟨(dictGet es "id").getD (.str ""),
            (dictGet es "name").getD (.str "Unnamed"),
            (dictGet es "cavity").getD (.str "primaryCavity"),
            (dictGet es "cycleInfo").getD (.obj [])⟩
  | _ => none

/-- The `favoriteCycles` list of one favourite group; `none` models the
exception the source raises when the group or the list has the wrong
shape. -/
def favGroupCycles : Json → Option (List Json)
  | .obj es =>
      match (dictGet es "favoriteCycles").getD (.arr []) with
      | .arr cs => some cs
      | _ => none
  | _ => none

/-- The flattening loop of `_fetch_favourites`: walk `favoritesList`,
collect every group's `favoriteCycles`, and build one flat list of
favourites. `none` models an exception escaping mid-loop (the stored
list is then never assigned). -/
def flattenFavourites (data : Json) : Option (List Favourite) :=
  match data with
  | .obj es =>
      match (dictGet es "favoritesList").getD (.arr []) with
      | .arr groups => do
          let cycleLists ← groups.mapM favGroupCycles
          cycleLists.flatten.mapM mkFavourite
      | _ => none
  | _ => none

/-- Outcome of the favourites HTTP GET. `body = none` models a response
whose JSON decoding raises (caught by the source); `networkError` models
the request itself raising (also caught). -/
inductive HttpResult where
  | response (status : Nat) (body : Option Json)
  | networkError

/-- `_fetch_favourites` after a successful `_ensure_auth`: on a non-200
status, a request error or an undecodable body, return with the stored
list untouched; on success, replace the stored list with the flattened
fetch result (left untouched when the flattening raises mid-loop). -/
def fetchFavourites (prev : List Favourite) (r : HttpResult) : List Favourite :=
  match r with
  | .networkError => prev
  | .response status body =>
      if status ≠ 200 then prev
      else
        match body with
        | none => prev
        | some data => (flattenFavourites data).getD prev

/-- Python truthiness on decoded JSON values (`if not cycles:`). -/
def pyFalsy : Json → Bool
  | .null => true
  | .bool b => !b
  | .num n => n == 0
  | .str s => s.isEmpty
  | .arr es => es.isEmpty
  | .obj es => es.isEmpty

/-- The fixed nested path of `async_trigger_favourite`:
`cycleInfo.get("cycleMyCreation", {}).get("entityCycle", {})
  .get("myCreationCycle", [])`. Each `.get` presupposes a dict; a
non-dict intermediate raises in the source (modelled as `none`). -/
def cyclePath (cycleInfo : Json) : Option Json :=
  match cycleInfo with
  | .obj a =>
      match (dictGet a "cycleMyCreation").getD (.obj []) with
      | .obj b =>
          match (dictGet b "entityCycle").getD (.obj []) with
          | .obj c => some ((dictGet c "myCreationCycle").getD (.arr []))
          | _ => none
      | _ => none
  | _ => none

/-- `float(x)` on a decoded value, for the numeric cycle fields; `none`
models the `ValueError`/`TypeError` the conversion raises otherwise
(floats are modelled as integers). -/
def pyFloat : Json → Option Int
  | .num n => some n
  | .bool b => some (if b then 1 else 0)
  | .str s => s.toInt?
  | _ => none

/-- `cycle.get(k)` followed by the walrus truthiness test: the value
when present and truthy, else `none`. -/
def truthyField (c : Json) (k : String) : Option Json :=
  match jGet c k with
  | some v => if pyFalsy v then none else some v
  | none => none

/-- The `run` payload `async_trigger_favourite` builds from the first
cycle definition: addressee, command, session id, plus the optional
recipe / temperature / preheat / cook-timer fields when present and
truthy. `none` models a raising numeric conversion. -/
def runPayload (cavity : Json) (sessionId : String) (cycle : Json) :
    Option Json := do
  let base := [("addressee", cavity), ("command", Json.str "run"),
               ("sessionId", Json.str sessionId)]
  let withRecipe := match truthyField cycle "CycleName" with
    | some v => base ++ [("recipeId", v)]
    | none => base
  let withTemp ← match truthyField cycle "CavityTargetTemp" with
    | some v => (pyFloat v).map fun n =>
        withRecipe ++ [("targetTemperature", Json.num n)]
    | none => some withRecipe
  let withPreheat := match truthyField cycle "PreheatType" with
    | some v => withTemp ++ [("preheat", v)]
    | none => withTemp
  let withTimer ← match truthyField cycle "CookTimeSetTime" with
    | some v => (pyFloat v).map fun n =>
        withPreheat ++ [("cookTimer",
          Json.obj [("command", Json.str "run"), ("time", Json.num n)])]
    | none => some withPreheat
  pure (Json.obj withTimer)

/-- How `async_trigger_favourite` returns. Every constructor but
`pyException` is a normal return (the first two are logged-and-return
paths); `pyException` models an uncaught exception from a malformed
favourite shape. -/
inductive TriggerOutcome where
  | favouriteNotFound
  | noCycleData
  | published
  | pyException
  deriving DecidableEq

/-- `async_trigger_favourite`: look the favourite up by id, walk the
fixed cycle path, return (logging only) when no favourite matches or the
path is falsy, else publish the built `run` command through
`_publish_command`. Returns the outcome and the MQTT calls made. -/
def triggerFavourite (favs : List Favourite) (connected : Bool)
    (model said clientId : String) (favId : Json)
    (sessionId requestId : String) (timestampMs : Int) :
    TriggerOutcome × List MqttCall :=
  match favs.find? (fun f => Json.beq f.id favId) with
  | none => (.favouriteNotFound, [])
  | some fav =>
      match cyclePath fav.cycleInfo with
      | none => (.pyException, [])
      | some cycles =>
          if pyFalsy cycles then (.noCycleData, [])
          else
            match cycles with
            | .arr (c :: _) =>
                match runPayload fav.cavity sessionId c with
                | none => (.pyException, [])
                | some payload =>
                    (.published,
                     (publishCommand connected model said clientId
                        requestId timestampMs payload).2)
            | _ => (.pyException, [])

/-- Whether a trigger outcome is a raised exception (as opposed to a
normal, possibly logged, return). -/
def raisesException : TriggerOutcome → Bool
  | .pyException => true
  | _ => false

/-- A heap address, for the reference semantics of the snapshot. -/
abbrev Addr := Nat

/-- The coordinator's state cell under reference semantics: a store of
dict objects, the address `self._state` points at, and the values passed
to `async_set_updated_data` (each a `dict(...)` value copy). -/
structure CoordRef where
  store : Addr → PyDict
  stateAddr : Addr
  notified : List PyDict

/-- The `state` property: `return self._state` hands out the reference
to the live internal dict, not a copy. -/
def stateProperty (c : CoordRef) : Addr :=
  c.stateAddr

/-- Dereference an address an observer holds. -/
def readRef (c : CoordRef) (a : Addr) : PyDict :=
  c.store a

/-- `_apply_state_update` under reference semantics:
`self._state.update(data)` mutates the dict object in place (same
address, new contents), then `async_set_updated_data(dict(self._state))`
passes a value copy of the merged dict to observers. -/
def applyStateUpdateRef (c : CoordRef) (data : PyDict) : CoordRef :=
  let merged := dictUpdate (c.store c.stateAddr) data
  { store := fun a => if a = c.stateAddr then merged else c.store a
    stateAddr := c.stateAddr
    notified := c.notified ++ [merged] }

/-- First inbound frame of the C1 scenario, on the state topic. -/
def c1Frame1 : Json :=
  .obj [("primaryCavity", .obj [("cavityState", .str "preheating")])]

/-- Second inbound frame of the C1 scenario, on the response topic. -/
def c1Frame2 : Json :=
  .obj [("payload",
         .obj [("primaryCavity",
                .obj [("ovenDisplayTemperature", .num 180)])])]

/-- Snapshot after the two C1 scenario frames, starting empty. -/
def c1Final : PyDict :=
  onMqttMessage
    (onMqttMessage [] (topicStateUpdate "WPOVEN" "SAID123") c1Frame1)
    (topicCmdResponse "WPOVEN" "SAID123" "ident_ha") c1Frame2

/-- Cancel payload of the C2 scenario. -/
def c2Payload : Json :=
  .obj [("addressee", .str "primaryCavity"), ("command", .str "cancel"),
        ("sessionId", .str "abc")]

/-- A favourite whose `cycleInfo` is empty, so its nested cycle path
resolves to the empty-list default. -/
def c3Fav : Favourite :=
  ⟨.str "fav-1", .str "Pizza", .str "primaryCavity", .obj []⟩

/-- A coordinator whose live state dict is empty, at address 0. -/
def c8Init : CoordRef :=
  ⟨fun _ => [], 0, []⟩

/-- A partial update for the C8 scenario. -/
def c8Update : PyDict :=
  [("primaryCavity", Json.obj [("cavityState", Json.str "preheating")])]

/-- A favourites fetch body with one group holding one cycle. -/
def c9Body : Json :=
  .obj [("favoritesList",
         .arr [.obj [("favoriteCycles",
                      .arr [.obj [("id", .str "fav-1"),
                                  ("name", .str "Pizza")]])]])]

/-- The favourite flattened from `c9Body` with the source's defaults. -/
def c9Fav : Favourite :=
  ⟨.str "fav-1", .str "Pizza", .str "primaryCavity", .obj []⟩

/-- A command-response frame without a `payload` key: only envelope
fields and state-shaped data at the top level. -/
def c10Entries : PyDict :=
  [("requestId", .str "r-1"), ("timestamp", .num 1700000000000),
   ("primaryCavity", .obj [("cavityState", .str "idle")])]

-- ───────────────────────────── Theorems ─────────────────────────────

@[simp] theorem dictGet_nil (k : String) : dictGet [] k = none := rfl

@[simp] theorem dictGet_cons (k' : String) (v : Json) (rest : PyDict) (k : String) :
    dictGet ((k', v) :: rest) k = if k' = k then some v else dictGet rest k := rfl

@[simp] theorem orO_none (b : Option Json) : orO none b = b := rfl

@[simp] theorem orO_some_eq (v : Json) (b : Option Json) : orO (some v) b = some v := rfl

theorem dictGet_append (a b : PyDict) (k : String) :
    dictGet (a ++ b) k = orO (dictGet a k) (dictGet b k) := by
  induction a with
  | nil => simp [orO_none]
  | cons kv rest ih =>
      obtain ⟨k', v⟩ := kv
      by_cases h : k' = k <;> simp [dictGet_cons, h, ih, orO_some_eq]

theorem dictGet_setKey_self (d : PyDict) (k : String) (v : Json) :
    dictGet (setKey d k v) k = some v := by
  induction d with
  | nil => simp [setKey]
  | cons kv rest ih =>
      obtain ⟨k', v'⟩ := kv
      by_cases h : k' = k <;> simp [setKey, h, ih]

theorem dictGet_setKey_ne (d : PyDict) (k' : String) (v : Json) (k : String)
    (h : k' ≠ k) : dictGet (setKey d k' v) k = dictGet d k := by
  induction d with
  | nil => simp [setKey, h]
  | cons kv rest ih =>
      obtain ⟨k₀, v₀⟩ := kv
      by_cases h₀ : k₀ = k'
      · subst h₀; simp [setKey, h]
      · by_cases h₁ : k₀ = k <;> simp [setKey, h₀, h₁, ih, Ne.symm h]

theorem lastBinding_nil (k : String) : lastBinding [] k = none := rfl

theorem lastBinding_cons (k' : String) (v : Json) (rest : PyDict) (k : String) :
    lastBinding ((k', v) :: rest) k
      = orO (lastBinding rest k) (if k' = k then some v else none) := by
  unfold lastBinding
  rw [List.reverse_cons, dictGet_append]
  simp [dictGet_cons]

theorem lastBinding_append (a b : PyDict) (k : String) :
    lastBinding (a ++ b) k = orO (lastBinding b k) (lastBinding a k) := by
  unfold lastBinding
  rw [List.reverse_append, dictGet_append]

theorem orO_assoc (a b c : Option Json) :
    orO (orO a b) c = orO a (orO b c) := by
  cases a <;> cases b <;> rfl

theorem dictGet_dictUpdate (u d : PyDict) (k : String) :
    dictGet (dictUpdate d u) k = orO (lastBinding u k) (dictGet d k) := by
  induction u generalizing d with
  | nil => simp [dictUpdate, lastBinding, orO_none]
  | cons kv rest ih =>
      obtain ⟨k', v⟩ := kv
      have step : dictUpdate d ((k', v) :: rest) = dictUpdate (setKey d k' v) rest := rfl
      rw [step, ih, lastBinding_cons, orO_assoc]
      by_cases h : k' = k
      · subst h
        cases lastBinding rest k' <;> simp [orO, dictGet_setKey_self]
      · cases lastBinding rest k <;> simp [orO, h, dictGet_setKey_ne d k' v k h]

theorem lastWritten_cons (u : PyDict) (rest : List PyDict) (k : String) :
    lastWritten (u :: rest) k = orO (lastWritten rest k) (lastBinding u k) := by
  unfold lastWritten
  rw [List.flatten_cons, lastBinding_append]

theorem dictGet_applyAll (us : List PyDict) (st : PyDict) (k : String) :
    dictGet (applyAll st us) k = orO (lastWritten us k) (dictGet st k) := by
  induction us generalizing st with
  | nil => simp [applyAll, lastWritten, lastBinding, orO_none]
  | cons u rest ih =>
      have step : applyAll st (u :: rest) = applyAll (applyStateUpdate st u) rest := rfl
      rw [step, ih, lastWritten_cons, orO_assoc, applyStateUpdate, dictGet_dictUpdate]

/-- C1 counterexample: after the frame
`{"primaryCavity":{"cavityState":"preheating"}}` on the state topic and
`{"payload":{"primaryCavity":{"ovenDisplayTemperature":180}}}` on the
response topic, the snapshot does NOT keep
`primaryCavity.cavityState == "preheating"`: the second frame's shallow
`dict.update` replaces the whole `primaryCavity` sub-dict. -/
theorem c1_nested_scenario_fails :
    ¬ ((dictGet c1Final "primaryCavity").bind (fun j => jGet j "cavityState")
          = some (Json.str "preheating")
        ∧ (dictGet c1Final "primaryCavity").bind (fun j => jGet j "ovenDisplayTemperature")
          = some (Json.num 180)) := by
  intro h
  have h1 := h.1
  rw [show (dictGet c1Final "primaryCavity").bind (fun j => jGet j "cavityState")
        = none from rfl] at h1
  exact Option.noConfusion h1

/-- C1 (amended): the merge is a shallow, top-level-key merge — for every
sequence of applied updates, the snapshot's value for a TOP-LEVEL field
equals the value from the most recently applied update that included
that top-level field, and top-level fields absent from every update keep
their prior value; in the scenario, the second frame replaces the whole
`primaryCavity` sub-dict, so the snapshot ends with
`primaryCavity == {"ovenDisplayTemperature": 180}` — the temperature is
present and `cavityState` is gone. -/
theorem c1_shallow_top_level_merge (st : PyDict) (us : List PyDict) (k : String) :
    dictGet (applyAll st us) k = orO (lastWritten us k) (dictGet st k)
    ∧ dictGet c1Final "primaryCavity"
        = some (.obj [("ovenDisplayTemperature", .num 180)])
    ∧ (dictGet c1Final "primaryCavity").bind (fun j => jGet j "cavityState")
        = none :=
  ⟨dictGet_applyAll us st k, rfl, rfl⟩

/-- C2 counterexample: `_publish_command` of the cancel command with no
live connection raises nothing — in particular not
`ChannelUnavailableError` — and makes no MQTT call: the failure is
logged and swallowed, the caller's await returns normally. -/
theorem c2_no_connection_not_raised :
    (publishCommand false "WPOVEN" "SAID123" "ident_ha" "req-1" 0 c2Payload).1
        ≠ some PubError.channelUnavailable
    ∧ publishCommand false "WPOVEN" "SAID123" "ident_ha" "req-1" 0 c2Payload
        = (none, []) := by
  constructor
  · rw [show (publishCommand false "WPOVEN" "SAID123" "ident_ha" "req-1" 0
        c2Payload).1 = none from rfl]
    exact fun h => Option.noConfusion h
  · rfl

/-- C2 (amended): for every command send attempted while no live
connection exists, the send performs no network activity and returns
normally with no exception — the error is logged and silently swallowed
from the caller's perspective, not surfaced as `ChannelUnavailableError`. -/
theorem c2_no_connection_silently_swallowed (model said clientId : String)
    (requestId : String) (timestampMs : Int) (payload : Json) :
    publishCommand false model said clientId requestId timestampMs payload
      = (none, []) := rfl

/-- C3 counterexample: triggering a favourite whose fixed nested cycle
path resolves to the empty-list default returns normally (logging only)
with the `noCycleData` outcome — no `IncompleteFavouriteError` or any
other exception is raised — and issues no publish. -/
theorem c3_empty_cycles_not_raised :
    triggerFavourite [c3Fav] true "WPOVEN" "SAID123" "ident_ha"
        (Json.str "fav-1") "sess-1" "req-1" 0
      = (TriggerOutcome.noCycleData, [])
    ∧ raisesException TriggerOutcome.noCycleData = false :=
  ⟨rfl, rfl⟩

/-- C3 (amended): for every favourite whose fixed nested cycle path
inside `cycleInfo` resolves to a falsy value (the absent path defaults
to the empty list), triggering that favourite's id logs an error and
returns normally with no publish issued; no exception is raised. -/
theorem c3_empty_cycles_no_publish (favs : List Favourite) (connected : Bool)
    (model said clientId : String) (favId : Json)
    (sessionId requestId : String) (timestampMs : Int) (fav : Favourite)
    (cycles : Json)
    (hfind : favs.find? (fun f => Json.beq f.id favId) = some fav)
    (hpath : cyclePath fav.cycleInfo = some cycles)
    (hempty : pyFalsy cycles = true) :
    triggerFavourite favs connected model said clientId favId
        sessionId requestId timestampMs
      = (TriggerOutcome.noCycleData, []) := by
  simp [triggerFavourite, hfind, hpath, hempty]

/-- C3 witness: the amended theorem applied to a favourite with an empty
`cycleInfo`, whose cycle path resolves to the empty-list default. -/
theorem c3_empty_cycles_no_publish_witness :
    [c3Fav].find? (fun f => Json.beq f.id (Json.str "fav-1")) = some c3Fav
    ∧ cyclePath c3Fav.cycleInfo = some (.arr [])
    ∧ pyFalsy (Json.arr []) = true
    ∧ triggerFavourite [c3Fav] true "WPOVEN" "SAID123" "ident_ha"
        (Json.str "fav-1") "sess-1" "req-1" 0
      = (TriggerOutcome.noCycleData, []) :=
  ⟨rfl, rfl, rfl,
   c3_empty_cycles_no_publish [c3Fav] true "WPOVEN" "SAID123" "ident_ha"
     (Json.str "fav-1") "sess-1" "req-1" 0 c3Fav (.arr []) rfl rfl rfl⟩

/-- C4: when the OAuth tier is stale and a refresh token is stored,
`_ensure_auth` attempts the refresh-token grant first; the password
grant is attempted only if the refresh-token grant fails; and when both
grants fail it raises (`AuthenticationError` is realised in the source
as `UpdateFailed("Authentication failed")`). -/
theorem c4_refresh_grant_preferred (hasAccessToken : Bool)
    (now tokenExpires : Int) (env : AuthEnv)
    (hstale : isTokenValid hasAccessToken now tokenExpires = false) :
    (ensureAuth hasAccessToken now tokenExpires true env).2.head?
        = some AuthCall.refreshGrant
    ∧ (AuthCall.passwordGrant ∈ (ensureAuth hasAccessToken now tokenExpires true env).2
        ↔ env.refreshOk = false)
    ∧ (env.refreshOk = false → env.passwordOk = false →
        (ensureAuth hasAccessToken now tokenExpires true env).1 = none) := by
  obtain ⟨r, p⟩ := env
  cases r <;> cases p <;> simp [ensureAuth, hstale]

/-- C4 witness: the theorem applied with an expired token, both grants
failing. -/
theorem c4_refresh_grant_preferred_witness :
    isTokenValid false 1000 0 = false
    ∧ ((ensureAuth false 1000 0 true ⟨false, false⟩).2.head?
          = some AuthCall.refreshGrant
       ∧ (AuthCall.passwordGrant ∈ (ensureAuth false 1000 0 true ⟨false, false⟩).2
            ↔ (⟨false, false⟩ : AuthEnv).refreshOk = false)
       ∧ ((⟨false, false⟩ : AuthEnv).refreshOk = false →
            (⟨false, false⟩ : AuthEnv).passwordOk = false →
            (ensureAuth false 1000 0 true ⟨false, false⟩).1 = none)) :=
  ⟨rfl, c4_refresh_grant_preferred false 1000 0 ⟨false, false⟩ rfl⟩

theorem count_map_oauthToken (cs : List AuthCall) (x : NetCall)
    (h : ∀ c, NetCall.oauthToken c ≠ x) :
    (cs.map NetCall.oauthToken).count x = 0 := by
  induction cs with
  | nil => rfl
  | cons c rest ih => simp [List.count_cons, ih, h c]

/-- C5: each credential tier's ensure operation is a no-op (no network
call, immediate success) while `now < expiry − 300s` holds for that
tier; when the tier is stale, one exchange call is issued for it — one
token-endpoint call for the OAuth tier (when the attempted refresh grant
succeeds; the password fallback on a failed refresh is the subject of
C4), and exactly one `GetCredentialsForIdentity` exchange call (after
exactly one identity call) for the temporary-credential tier. -/
theorem c5_tier_refresh_only_when_stale :
    (∀ hasAccessToken now tokenExpires hasRefreshToken env,
        isTokenValid hasAccessToken now tokenExpires = true →
        ensureAuth hasAccessToken now tokenExpires hasRefreshToken env
          = (some (), []))
    ∧ (∀ hasAwsCreds credsExpire hasAccessToken tokenExpires now
          hasRefreshToken env cenv,
        isCognitoValid hasAwsCreds now credsExpire = true →
        ensureCognitoCreds hasAwsCreds credsExpire hasAccessToken
            tokenExpires now hasRefreshToken env cenv
          = (some (), []))
    ∧ (∀ hasAccessToken now tokenExpires env,
        isTokenValid hasAccessToken now tokenExpires = false →
        env.refreshOk = true →
        (ensureAuth hasAccessToken now tokenExpires true env).2
          = [AuthCall.refreshGrant])
    ∧ (∀ hasAwsCreds credsExpire hasAccessToken tokenExpires now
          hasRefreshToken env cenv,
        isCognitoValid hasAwsCreds now credsExpire = false →
        (ensureAuth hasAccessToken now tokenExpires hasRefreshToken env).1
          = some () →
        cenv.identityOk = true →
        (ensureCognitoCreds hasAwsCreds credsExpire hasAccessToken
            tokenExpires now hasRefreshToken env cenv).2.count
              NetCall.cognitoExchange = 1) := by
  refine ⟨?_, ?_, ?_, ?_⟩
  · intro hasAccessToken now tokenExpires hasRefreshToken env h
    simp [ensureAuth, h]
  · intro hasAwsCreds credsExpire hasAccessToken tokenExpires now
      hasRefreshToken env cenv h
    simp [ensureCognitoCreds, h]
  · intro hasAccessToken now tokenExpires env hstale hrok
    simp [ensureAuth, hstale, hrok]
  · intro hasAwsCreds credsExpire hasAccessToken tokenExpires now
      hasRefreshToken env cenv hcog hok hid
    rcases hEA : ensureAuth hasAccessToken now tokenExpires hasRefreshToken env
      with ⟨o, cs⟩
    rw [hEA] at hok
    simp only at hok
    subst hok
    obtain ⟨iok, eok⟩ := cenv
    simp only at hid
    subst hid
    have hcount : (cs.map NetCall.oauthToken).count NetCall.cognitoExchange = 0 :=
      count_map_oauthToken cs _ (fun c h => NetCall.noConfusion h)
    cases eok <;>
      simp [ensureCognitoCreds, hcog, hEA, List.count_append, hcount,
        List.count_cons]

/-- C5 witness: the theorem applied tier by tier — a fresh OAuth token
and fresh Cognito credentials cause no calls; a stale OAuth token with a
working refresh grant causes exactly one token call; stale Cognito
credentials cause exactly one credential-exchange call. -/
theorem c5_tier_refresh_only_when_stale_witness :
    isTokenValid true 0 1000 = true
    ∧ ensureAuth true 0 1000 true ⟨true, true⟩ = (some (), [])
    ∧ isCognitoValid true 0 1000 = true
    ∧ ensureCognitoCreds true 1000 true 1000 0 true ⟨true, true⟩ ⟨true, true⟩
        = (some (), [])
    ∧ isTokenValid false 1000 0 = false
    ∧ (ensureAuth false 1000 0 true ⟨true, true⟩).2 = [AuthCall.refreshGrant]
    ∧ isCognitoValid false 0 0 = false
    ∧ (ensureCognitoCreds false 0 true 1000 0 true ⟨true, true⟩
         ⟨true, true⟩).2.count NetCall.cognitoExchange = 1 :=
  ⟨by decide,
   c5_tier_refresh_only_when_stale.1 true 0 1000 true ⟨true, true⟩ (by decide),
   by decide,
   c5_tier_refresh_only_when_stale.2.1 true 1000 true 1000 0 true
     ⟨true, true⟩ ⟨true, true⟩ (by decide),
   by decide,
   c5_tier_refresh_only_when_stale.2.2.1 false 1000 0 ⟨true, true⟩
     (by decide) rfl,
   by decide,
   c5_tier_refresh_only_when_stale.2.2.2 false 0 true 1000 0 true
     ⟨true, true⟩ ⟨true, true⟩ (by decide) (by decide) rfl⟩

/-- C6: with a still-valid OAuth access token and expired Cognito
credentials, `_ensure_cognito_creds` issues exactly the identity
federation call followed by the credential-exchange call — so one of
each and zero OAuth token calls. -/
theorem c6_one_identity_one_exchange_zero_oauth (hasAwsCreds : Bool)
    (credsExpire tokenExpires now : Int) (hasAccessToken hasRefreshToken : Bool)
    (env : AuthEnv) (cenv : CognitoEnv)
    (htok : isTokenValid hasAccessToken now tokenExpires = true)
    (hcog : isCognitoValid hasAwsCreds now credsExpire = false)
    (hid : cenv.identityOk = true) :
    (ensureCognitoCreds hasAwsCreds credsExpire hasAccessToken tokenExpires
        now hasRefreshToken env cenv).2
      = [NetCall.cognitoIdentity, NetCall.cognitoExchange] := by
  have hEA : ensureAuth hasAccessToken now tokenExpires hasRefreshToken env
      = (some (), []) := by
    simp [ensureAuth, htok]
  obtain ⟨iok, eok⟩ := cenv
  simp only at hid
  subst hid
  cases eok <;> simp [ensureCognitoCreds, hcog, hEA]

/-- C6 witness: the theorem applied with a token valid until 1000s,
Cognito credentials absent, and a working identity call, at time 0. -/
theorem c6_one_identity_one_exchange_zero_oauth_witness :
    isTokenValid true 0 1000 = true
    ∧ isCognitoValid false 0 0 = false
    ∧ (ensureCognitoCreds false 0 true 1000 0 true ⟨true, true⟩
         ⟨true, true⟩).2
        = [NetCall.cognitoIdentity, NetCall.cognitoExchange] :=
  ⟨by decide, by decide,
   c6_one_identity_one_exchange_zero_oauth false 0 1000 0 true true
     ⟨true, true⟩ ⟨true, true⟩ (by decide) (by decide) rfl⟩

theorem topicState_ne_topicCmdResponse (model said clientId : String) :
    topicStateUpdate model said ≠ topicCmdResponse model said clientId := by
  intro h
  have hd := congrArg String.data h
  simp only [topicStateUpdate, topicCmdResponse, String.data_append] at hd
  simp at hd

/-- C7: on a connection-resumed event with the session not preserved,
the handler replays subscribe exactly once for each of the two topics
(state-update and command-response) and makes no other call; with the
session preserved, it makes no resubscription call at all. -/
theorem c7_resubscribe_only_on_lost_session (model said clientId : String) :
    (onMqttResumed false model said clientId).countP
        (isSubscribeOn (topicStateUpdate model said)) = 1
    ∧ (onMqttResumed false model said clientId).countP
        (isSubscribeOn (topicCmdResponse model said clientId)) = 1
    ∧ (onMqttResumed false model said clientId).length = 2
    ∧ onMqttResumed true model said clientId = [] := by
  have hne := topicState_ne_topicCmdResponse model said clientId
  refine ⟨?_, ?_, rfl, rfl⟩
  · simp [onMqttResumed, subscribeTopics, isSubscribeOn, List.countP_cons,
      beq_iff_eq, Ne.symm hne]
  · simp [onMqttResumed, subscribeTopics, isSubscribeOn, List.countP_cons,
      beq_iff_eq, hne]

/-- C8 counterexample: the `state` property hands out the live internal
dict, not a value copy — after one inbound merge, the value an observer
reads through the reference obtained before the merge has changed. -/
theorem c8_snapshot_read_sees_mutation :
    readRef (applyStateUpdateRef c8Init c8Update) (stateProperty c8Init)
      ≠ readRef c8Init (stateProperty c8Init) := by
  rw [show readRef (applyStateUpdateRef c8Init c8Update) (stateProperty c8Init)
        = c8Update from rfl,
      show readRef c8Init (stateProperty c8Init) = [] from rfl]
  exact fun h => List.noConfusion h

/-- C8 (amended): the `state` property exposes the live mutable dict:
the reference it returns is stable across merges and dereferencing it
after a merge yields the merged contents (so observers holding it see
mutations); only the change-notification payload
(`async_set_updated_data(dict(self._state))`) is a value copy. -/
theorem c8_state_property_is_live_reference (c : CoordRef) (u : PyDict) :
    stateProperty (applyStateUpdateRef c u) = stateProperty c
    ∧ readRef (applyStateUpdateRef c u) (stateProperty c)
        = dictUpdate (readRef c (stateProperty c)) u
    ∧ (applyStateUpdateRef c u).notified
        = c.notified ++ [dictUpdate (readRef c (stateProperty c)) u] :=
  ⟨rfl, by simp [readRef, applyStateUpdateRef, stateProperty], rfl⟩

/-- C9: a favourites refresh that fails — non-200 status, request error,
or undecodable body — leaves the previously stored list unchanged; the
stored list is replaced only when the fetch succeeds. -/
theorem c9_favourites_kept_on_failure :
    (∀ prev status body, status ≠ 200 →
        fetchFavourites prev (.response status body) = prev)
    ∧ (∀ prev, fetchFavourites prev .networkError = prev)
    ∧ (∀ prev, fetchFavourites prev (.response 200 none) = prev)
    ∧ (∀ prev data favs, flattenFavourites data = some favs →
        fetchFavourites prev (.response 200 (some data)) = favs) := by
  refine ⟨?_, fun prev => rfl, fun prev => rfl, ?_⟩
  · intro prev status body h
    simp [fetchFavourites, h]
  · intro prev data favs h
    simp [fetchFavourites, h]

/-- C9 witness: the theorem applied to a one-favourite stored list with
an HTTP 500, a network error, an undecodable body, and one successful
fetch that replaces the list. -/
theorem c9_favourites_kept_on_failure_witness :
    (500 : Nat) ≠ 200
    ∧ fetchFavourites [c3Fav] (.response 500 none) = [c3Fav]
    ∧ fetchFavourites [c3Fav] .networkError = [c3Fav]
    ∧ fetchFavourites [c3Fav] (.response 200 none) = [c3Fav]
    ∧ flattenFavourites c9Body = some [c9Fav]
    ∧ fetchFavourites [c3Fav] (.response 200 (some c9Body)) = [c9Fav] :=
  ⟨by decide,
   c9_favourites_kept_on_failure.1 [c3Fav] 500 none (by decide),
   c9_favourites_kept_on_failure.2.1 [c3Fav],
   c9_favourites_kept_on_failure.2.2.1 [c3Fav],
   rfl,
   c9_favourites_kept_on_failure.2.2.2 [c3Fav] c9Body [c9Fav] rfl⟩

/-- C10: an inbound message on a topic other than the state-update topic
whose decoded object has no `payload` key is merged wholesale into the
snapshot — envelope fields included — because `data.get("payload", data)`
falls back to the whole top-level object. -/
theorem c10_envelope_merged_when_payload_missing (st : PyDict)
    (topic : String) (entries : PyDict)
    (htopic : pyIn "/state/update" topic = false)
    (hnopayload : dictGet entries "payload" = none) :
    onMqttMessage st topic (.obj entries) = applyStateUpdate st entries := by
  simp [onMqttMessage, htopic, hnopayload]

/-- C10 witness: the theorem applied to a response-topic frame carrying
only envelope fields and state data; the envelope's `requestId` ends up
in the snapshot. -/
theorem c10_envelope_merged_when_payload_missing_witness :
    pyIn "/state/update" (topicCmdResponse "WPOVEN" "SAID123" "ident_ha") = false
    ∧ dictGet c10Entries "payload" = none
    ∧ onMqttMessage [] (topicCmdResponse "WPOVEN" "SAID123" "ident_ha")
        (.obj c10Entries) = applyStateUpdate [] c10Entries
    ∧ dictGet (onMqttMessage [] (topicCmdResponse "WPOVEN" "SAID123" "ident_ha")
        (.obj c10Entries)) "requestId" = some (.str "r-1") :=
  ⟨rfl, rfl,
   c10_envelope_merged_when_payload_missing []
     (topicCmdResponse "WPOVEN" "SAID123" "ident_ha") c10Entries rfl rfl,
   rfl⟩

end WhirlpoolOven
